import Mathlib

/-!
Verification development for the AIFi on-chain core: the lending pool
(`AIFiLendingPool.sol`), the remittance ledger (`AIFiRemittance`, same file),
the voice-command registry (`AIFiVoiceInterface`, same file) and the risk
oracle (`AIRiskOracle.sol`).  Each contract is shallowly embedded: uint256
arithmetic is `Nat` with explicit `2 ^ 256` overflow checks matching
SafeMath / Solidity 0.8 checked arithmetic, storage mappings are total
functions with the Solidity zero-value default, and every external entry
point is a function from state (plus caller and inputs) to
`Except Err newState`; an `Except.error` result models a revert, which
leaves the contract state untouched.
-/

namespace AIFi

/-- Solidity uint256 modulus. -/
def U256 : Nat := 2 ^ 256

/-- SafeMath add: reverts (`none`) on overflow past `2 ^ 256 - 1`. -/
def checkedAdd (a b : Nat) : Option Nat :=
  if a + b < U256 then some (a + b) else none

/-- SafeMath mul: reverts (`none`) on overflow past `2 ^ 256 - 1`. -/
def checkedMul (a b : Nat) : Option Nat :=
  if a * b < U256 then some (a * b) else none

/-- Pointwise update of a one-key storage mapping. -/
def upd {α β : Type} [DecidableEq α] (f : α → β) (a : α) (v : β) : α → β :=
  fun x => if x = a then v else f x

/-- Pointwise update of a two-key storage mapping. -/
def upd2 {α γ β : Type} [DecidableEq α] [DecidableEq γ]
    (f : α → γ → β) (a : α) (c : γ) (v : β) : α → γ → β :=
  fun x y => if x = a ∧ y = c then v else f x y

/-- Error taxonomy of the specification (§7), carried with the revert
reason string of the corresponding `require` in the source. -/
inductive ErrKind
  | authorization
  | validation
  | state
  | liquidity
  | insufficientFunds
  | transfer
  | overflow
deriving DecidableEq, Repr

/-- A revert: its taxonomy kind and the contract's reason string. -/
structure Err where
  kind : ErrKind
  msg : String
deriving DecidableEq, Repr

/-- Risk tiers of `AIFiLendingPool` / `AIRiskOracle`; `LOW` is the enum's
zero value (the Solidity storage default). -/
inductive RiskTier
  | LOW
  | MEDIUM
  | HIGH
deriving DecidableEq, Repr

/-- Numeric cast `uint8(tier)` as in `AIRiskOracle.getRiskTier`. -/
def RiskTier.toUint8 : RiskTier → Nat
  | .LOW => 0
  | .MEDIUM => 1
  | .HIGH => 2

/-- The lending pool's own address: custody account for pooled deposits. -/
def poolAddr : Nat := 10 ^ 9

/-- ERC20 `transfer`/`transferFrom` on a (token → holder → balance) map:
reverts (`none`) when the source balance is short.  The recipient-side
checked add of Solidity 0.8 cannot overflow because balances are bounded by
the token's total supply, so it is modelled unchecked. -/
def erc20Transfer (bal : Nat → Nat → Nat) (token source dest amount : Nat) :
    Option (Nat → Nat → Nat) :=
  if amount ≤ bal token source then
    let b1 := upd2 bal token source (bal token source - amount)
    some (upd2 b1 token dest (b1 token dest + amount))
  else none

/-- Model of `AIFiLendingPool.Loan`. -/
structure Loan where
  amount : Nat
  timestamp : Nat
  riskTier : RiskTier
  active : Bool
deriving DecidableEq, Repr

/-- Storage of `AIFiLendingPool`, plus the ERC20 balance environment the
pool moves funds in (`erc20 : token → holder → balance`). -/
structure LendState where
  supportedTokens : Nat → Bool
  interestRates : RiskTier → Nat
  userDeposits : Nat → Nat → Nat
  userLoans : Nat → Nat → Loan
  totalDeposits : Nat → Nat
  erc20 : Nat → Nat → Nat

/-- Pool state right after the constructor (tier rates 500/1000/1500),
with a given supported-token set and ERC20 environment and an otherwise
empty ledger. -/
def initLend (sup : Nat → Bool) (bal : Nat → Nat → Nat) : LendState where
  supportedTokens := sup
  interestRates := fun tier =>
    match tier with
    | .LOW => 500
    | .MEDIUM => 1000
    | .HIGH => 1500
  userDeposits := fun _ _ => 0
  userLoans := fun _ _ => ⟨0, 0, .LOW, false⟩
  totalDeposits := fun _ => 0
  erc20 := bal

/-- Model of `getRiskTierFromOracle`: the source's mock always returns MEDIUM. -/
def getRiskTierFromOracle (_user : Nat) : RiskTier := RiskTier.MEDIUM

/-- Model of `AIFiLendingPool.calculateInterest`:
`perSecondRate = annualRate * 1e18 / 31536000 / 10000`, then
`amount * perSecondRate * timeElapsed / 1e18`, all SafeMath. -/
def calculateInterest (rates : RiskTier → Nat) (amount timeElapsed : Nat)
    (tier : RiskTier) : Option Nat := do
  let r1 ← checkedMul (rates tier) (10 ^ 18)
  let perSecondRate := r1 / 31536000 / 10000
  let p1 ← checkedMul amount perSecondRate
  let p2 ← checkedMul p1 timeElapsed
  pure (p2 / 10 ^ 18)

/-- Model of `AIFiLendingPool.deposit`. -/
def LendState.deposit (s : LendState) (sender token amount : Nat) :
    Except Err LendState :=
  if s.supportedTokens token = false then
    .error ⟨.validation, "Token not supported"⟩
  else if amount = 0 then
    .error ⟨.validation, "Amount must be greater than 0"⟩
  else
    match erc20Transfer s.erc20 token sender poolAddr amount with
    | none => .error ⟨.transfer, "ERC20 transfer failed"⟩
    | some e1 =>
      match checkedAdd (s.userDeposits sender token) amount,
            checkedAdd (s.totalDeposits token) amount with
      | some ud, some td =>
        .ok { s with
              erc20 := e1
              userDeposits := upd2 s.userDeposits sender token ud
              totalDeposits := upd s.totalDeposits token td }
      | _, _ => .error ⟨.overflow, "SafeMath addition overflow"⟩

/-- Model of `AIFiLendingPool.withdraw`. -/
def LendState.withdraw (s : LendState) (sender token amount : Nat) :
    Except Err LendState :=
  if amount = 0 then
    .error ⟨.validation, "Amount must be greater than 0"⟩
  else if s.userDeposits sender token < amount then
    .error ⟨.insufficientFunds, "Insufficient balance"⟩
  else if s.totalDeposits token < amount then
    .error ⟨.overflow, "SafeMath subtraction overflow"⟩
  else
    match erc20Transfer s.erc20 token poolAddr sender amount with
    | none => .error ⟨.transfer, "ERC20 transfer failed"⟩
    | some e1 =>
      .ok { s with
            erc20 := e1
            userDeposits := upd2 s.userDeposits sender token
              (s.userDeposits sender token - amount)
            totalDeposits := upd s.totalDeposits token
              (s.totalDeposits token - amount) }

/-- Model of `AIFiLendingPool.borrow`: snapshots the mock oracle tier, debits the
pool total and pays the borrower. -/
def LendState.borrow (s : LendState) (sender token amount time : Nat) :
    Except Err LendState :=
  if s.supportedTokens token = false then
    .error ⟨.validation, "Token not supported"⟩
  else if amount = 0 then
    .error ⟨.validation, "Amount must be greater than 0"⟩
  else if s.totalDeposits token < amount then
    .error ⟨.liquidity, "Insufficient liquidity"⟩
  else if (s.userLoans sender token).active then
    .error ⟨.state, "Existing loan active"⟩
  else
    match erc20Transfer s.erc20 token poolAddr sender amount with
    | none => .error ⟨.transfer, "ERC20 transfer failed"⟩
    | some e1 =>
      .ok { s with
            erc20 := e1
            userLoans := upd2 s.userLoans sender token
              ⟨amount, time, getRiskTierFromOracle sender, true⟩
            totalDeposits := upd s.totalDeposits token
              (s.totalDeposits token - amount) }

/-- Model of `AIFiLendingPool.repay`: full repayment of principal plus accrued
interest; credits the pool total with both and deactivates the loan. -/
def LendState.repay (s : LendState) (sender token time : Nat) :
    Except Err LendState :=
  if (s.userLoans sender token).active = false then
    .error ⟨.state, "No active loan"⟩
  else if time < (s.userLoans sender token).timestamp then
    .error ⟨.overflow, "SafeMath subtraction overflow"⟩
  else
    match calculateInterest s.interestRates (s.userLoans sender token).amount
        (time - (s.userLoans sender token).timestamp)
        (s.userLoans sender token).riskTier with
    | none => .error ⟨.overflow, "SafeMath multiplication overflow"⟩
    | some interest =>
      match checkedAdd (s.userLoans sender token).amount interest with
      | none => .error ⟨.overflow, "SafeMath addition overflow"⟩
      | some totalRepayment =>
        if s.erc20 token sender < totalRepayment then
          .error ⟨.insufficientFunds, "Insufficient balance for repayment"⟩
        else
          match erc20Transfer s.erc20 token sender poolAddr totalRepayment with
          | none => .error ⟨.transfer, "ERC20 transfer failed"⟩
          | some e1 =>
            match checkedAdd (s.totalDeposits token) totalRepayment with
            | none => .error ⟨.overflow, "SafeMath addition overflow"⟩
            | some td =>
              .ok { s with
                    erc20 := e1
                    totalDeposits := upd s.totalDeposits token td
                    userLoans := upd2 s.userLoans sender token
                      { s.userLoans sender token with active := false } }

/-- One user-facing pool operation, carrying `msg.sender` and
`block.timestamp`. -/
inductive Op
  | deposit (sender token amount time : Nat)
  | withdraw (sender token amount time : Nat)
  | borrow (sender token amount time : Nat)
  | repay (sender token time : Nat)
deriving DecidableEq, Repr

/-- The account issuing an operation. -/
def Op.sender : Op → Nat
  | .deposit u _ _ _ => u
  | .withdraw u _ _ _ => u
  | .borrow u _ _ _ => u
  | .repay u _ _ => u

/-- Whether an operation is a repay. -/
def Op.isRepay : Op → Bool
  | .repay _ _ _ => true
  | _ => false

/-- Execute one operation against the pool. -/
def stepOp (s : LendState) : Op → Except Err LendState
  | .deposit u t a _ => s.deposit u t a
  | .withdraw u t a _ => s.withdraw u t a
  | .borrow u t a tm => s.borrow u t a tm
  | .repay u t tm => s.repay u t tm

/-- Transactional semantics: a reverted operation leaves state unchanged. -/
def applyOp (s : LendState) (op : Op) : LendState :=
  match stepOp s op with
  | .ok s1 => s1
  | .error _ => s

/-- Run a sequence of pool operations. -/
def exec (s : LendState) : List Op → LendState
  | [] => s
  | op :: rest => exec (applyOp s op) rest

/-- Sum of the per-account deposit balances of asset `t` over the account
set `A`. -/
def sumBal (A : Finset Nat) (s : LendState) (t : Nat) : Nat :=
  ∑ a ∈ A, s.userDeposits a t

/-- Principal contribution of a loan record: its amount when active. -/
def loanVal (l : Loan) : Nat :=
  if l.active then l.amount else 0

/-- Total principal of currently-active loans of asset `t` over the account
set `A`. -/
def outstanding (A : Finset Nat) (s : LendState) (t : Nat) : Nat :=
  ∑ a ∈ A, loanVal (s.userLoans a t)

/-- Whether an `Except` result is a success. -/
def exceptOk {ε α : Type} : Except ε α → Bool
  | .ok _ => true
  | .error _ => false

/-- Model of `AIFiRemittance.TransferStatus`; `PENDING` is the enum's zero value. -/
inductive TransferStatus
  | PENDING
  | COMPLETED
  | CANCELLED
deriving DecidableEq, Repr

/-- Model of `AIFiRemittance.Transfer`. -/
structure TransferRec where
  id : Nat
  sender : Nat
  recipientId : String
  tokenAddress : Nat
  amount : Nat
  fee : Nat
  originCountry : String
  destinationCountry : String
  timestamp : Nat
  status : TransferStatus
deriving DecidableEq, Repr

/-- Solidity zero value of a `Transfer` storage slot. -/
def defaultTransfer : TransferRec :=
  ⟨0, 0, "", 0, 0, 0, "", "", 0, .PENDING⟩

/-- The remittance contract's own address: escrow account for transfers. -/
def remitAddr : Nat := 10 ^ 9 + 1

/-- Storage of `AIFiRemittance`, plus the ERC20 balance environment
(`erc20 : token → holder → balance`). -/
structure RemitState where
  owner : Nat
  supportedTokens : Nat → Bool
  corridorFees : String → String → Nat
  defaultFee : Nat
  minTransferAmount : Nat
  maxTransferAmount : Nat
  transferCounter : Nat
  transfers : Nat → TransferRec
  userTransfers : Nat → List Nat
  treasury : Nat
  erc20 : Nat → Nat → Nat

/-- Model of `AIFiRemittance.calculateFee`: corridor rate if nonzero, else the
default rate, then `amount * rate / 10000` with SafeMath. -/
def calculateFee (s : RemitState) (origin destination : String) (amount : Nat) :
    Option Nat :=
  (checkedMul amount
      (if s.corridorFees origin destination = 0 then s.defaultFee
       else s.corridorFees origin destination)).map
    (fun p => p / 10000)

/-- Model of `AIFiRemittance.updateCorridorFee` (`onlyOwner`, fee capped at 500). -/
def updateCorridorFee (s : RemitState) (caller : Nat)
    (origin destination : String) (fee : Nat) : Except Err RemitState :=
  if caller ≠ s.owner then
    .error ⟨.authorization, "Ownable: caller is not the owner"⟩
  else if origin = "" then .error ⟨.validation, "Invalid origin"⟩
  else if destination = "" then .error ⟨.validation, "Invalid destination"⟩
  else if 500 < fee then .error ⟨.validation, "Fee too high"⟩
  else .ok { s with corridorFees := upd2 s.corridorFees origin destination fee }

/-- Model of `AIFiRemittance.initiateTransfer`: validates limits, computes the fee,
stores a PENDING record under the next counter value, escrows
`amount + fee` from the sender and immediately forwards the fee to the
treasury.  Returns the new state together with the transfer id. -/
def initiateTransfer (s : RemitState) (sender tokenAddress amount : Nat)
    (recipientId originCountry destinationCountry : String) (time : Nat) :
    Except Err (RemitState × Nat) :=
  if s.supportedTokens tokenAddress = false then
    .error ⟨.validation, "Token not supported"⟩
  else if amount < s.minTransferAmount then
    .error ⟨.validation, "Amount below minimum"⟩
  else if s.maxTransferAmount < amount then
    .error ⟨.validation, "Amount above maximum"⟩
  else if recipientId = "" then .error ⟨.validation, "Invalid recipient ID"⟩
  else if originCountry = "" then .error ⟨.validation, "Invalid origin country"⟩
  else if destinationCountry = "" then
    .error ⟨.validation, "Invalid destination country"⟩
  else
    match calculateFee s originCountry destinationCountry amount with
    | none => .error ⟨.overflow, "SafeMath multiplication overflow"⟩
    | some fee =>
      match checkedAdd amount fee with
      | none => .error ⟨.overflow, "SafeMath addition overflow"⟩
      | some totalAmount =>
        if s.erc20 tokenAddress sender < totalAmount then
          .error ⟨.insufficientFunds, "Insufficient balance"⟩
        else
          match checkedAdd s.transferCounter 1 with
          | none => .error ⟨.overflow, "SafeMath addition overflow"⟩
          | some newCounter =>
            match erc20Transfer s.erc20 tokenAddress sender remitAddr totalAmount with
            | none => .error ⟨.transfer, "ERC20 transferFrom failed"⟩
            | some e1 =>
              match erc20Transfer e1 tokenAddress remitAddr s.treasury fee with
              | none => .error ⟨.transfer, "ERC20 transfer failed"⟩
              | some e2 =>
                .ok ({ s with
                       transferCounter := newCounter
                       transfers := upd s.transfers s.transferCounter
                         ⟨s.transferCounter, sender, recipientId, tokenAddress,
                          amount, fee, originCountry, destinationCountry, time,
                          .PENDING⟩
                       userTransfers := upd s.userTransfers sender
                         (s.userTransfers sender ++ [s.transferCounter])
                       erc20 := e2 },
                     s.transferCounter)

/-- Model of `AIFiRemittance.completeTransfer` (`onlyOwner`): PENDING → COMPLETED,
no on-chain fund movement. -/
def completeTransfer (s : RemitState) (caller transferId : Nat) :
    Except Err RemitState :=
  if caller ≠ s.owner then
    .error ⟨.authorization, "Ownable: caller is not the owner"⟩
  else if (s.transfers transferId).id ≠ transferId then
    .error ⟨.state, "Transfer does not exist"⟩
  else if (s.transfers transferId).status ≠ .PENDING then
    .error ⟨.state, "Transfer not pending"⟩
  else
    .ok { s with
          transfers := upd s.transfers transferId
            { s.transfers transferId with status := .COMPLETED } }

/-- Model of `AIFiRemittance.cancelTransfer` (sender or owner): PENDING → CANCELLED
and the escrowed principal (not the fee) is returned to the sender. -/
def cancelTransfer (s : RemitState) (caller transferId : Nat) :
    Except Err RemitState :=
  if (s.transfers transferId).id ≠ transferId then
    .error ⟨.state, "Transfer does not exist"⟩
  else if (s.transfers transferId).status ≠ .PENDING then
    .error ⟨.state, "Transfer not pending"⟩
  else if ¬(caller = (s.transfers transferId).sender ∨ caller = s.owner) then
    .error ⟨.authorization, "Not authorized"⟩
  else
    match erc20Transfer s.erc20 (s.transfers transferId).tokenAddress remitAddr
        (s.transfers transferId).sender (s.transfers transferId).amount with
    | none => .error ⟨.transfer, "ERC20 transfer failed"⟩
    | some e1 =>
      .ok { s with
            transfers := upd s.transfers transferId
              { s.transfers transferId with status := .CANCELLED }
            erc20 := e1 }

/-- Storage of `AIRiskOracle`.  The mapping `userRiskTiers` defaults to the
enum zero value `LOW`, exactly as Solidity storage does: an account that
was never assessed and an account explicitly set to `LOW` occupy the same
storage representation. -/
structure OracleState where
  owner : Nat
  aiOracleUpdater : Nat
  userRiskTiers : Nat → RiskTier
  authorizedCallers : Nat → Bool

/-- Model of `AIRiskOracle.getRiskTier` (`onlyAuthorized`): returns MEDIUM for the
zero address or when the stored tier equals `RiskTier(0)` (= LOW), else
the stored tier's ordinal. -/
def getRiskTier (s : OracleState) (caller user : Nat) : Except Err Nat :=
  if s.authorizedCallers caller = true ∨ caller = s.owner then
    if user = 0 ∨ s.userRiskTiers user = RiskTier.LOW then
      .ok (RiskTier.toUint8 .MEDIUM)
    else
      .ok (RiskTier.toUint8 (s.userRiskTiers user))
  else .error ⟨.authorization, "Not authorized"⟩

/-- Model of `AIRiskOracle.updateRiskTier` (`onlyOracleUpdater`). -/
def updateRiskTier (s : OracleState) (caller user : Nat) (tier : RiskTier) :
    Except Err OracleState :=
  if caller ≠ s.aiOracleUpdater then .error ⟨.authorization, "Not oracle updater"⟩
  else if user = 0 then .error ⟨.validation, "Invalid user address"⟩
  else .ok { s with userRiskTiers := upd s.userRiskTiers user tier }

/-- Model of `AIFiVoiceInterface.ActionInfo` (the bytes4 selector as a number). -/
structure ActionInfo where
  targetContract : Nat
  functionSelector : Nat
  description : String
  active : Bool
deriving DecidableEq, Repr

/-- Storage of `AIFiVoiceInterface`. -/
structure VoiceState where
  owner : Nat
  actions : Nat → ActionInfo
  supportedLanguages : String → Bool
  authorizedProcessors : Nat → Bool

/-- Model of the EVM `keccak256` primitive: a concrete deterministic
256-bit digest of a byte string (an FNV-style fold).  Every property
proved below depends only on its being a function of the input bytes,
never on particular digest values. -/
def keccakModel (s : String) : Nat :=
  s.data.foldl (fun h c => (h * 1099511628211 + c.toNat + 1) % U256)
    14695981039346656037

/-- Model of `AIFiVoiceInterface.generateCommandHash`:
`keccak256(abi.encodePacked(language, ":", command))`. -/
def generateCommandHash (language command : String) : Nat :=
  keccakModel (language ++ ":" ++ command)

/-- Model of `AIFiVoiceInterface.registerAction` (`onlyOwner`): rejects a hash whose
action is already active. -/
def registerAction (s : VoiceState) (caller commandHash targetContract functionSelector : Nat)
    (description : String) : Except Err VoiceState :=
  if caller ≠ s.owner then
    .error ⟨.authorization, "Ownable: caller is not the owner"⟩
  else if commandHash = 0 then .error ⟨.validation, "Invalid command hash"⟩
  else if targetContract = 0 then .error ⟨.validation, "Invalid target contract"⟩
  else if functionSelector = 0 then .error ⟨.validation, "Invalid function selector"⟩
  else if description = "" then .error ⟨.validation, "Invalid description"⟩
  else if (s.actions commandHash).active = true then
    .error ⟨.state, "Command already registered"⟩
  else
    .ok { s with
          actions := upd s.actions commandHash
            ⟨targetContract, functionSelector, description, true⟩ }

/-- ERC20 environment for the concrete lending scenarios: account 5 holds
2000 units of every token. -/
def scenBal : Nat → Nat → Nat := fun _ h => if h = 5 then 2000 else 0

/-- Pool state after `deposit(5, 7, 1000)` then `borrow(5, 7, 400)` from
the empty ledger. -/
def scenBorrowed : LendState :=
  exec (initLend (fun _ => true) scenBal) [Op.deposit 5 7 1000 0, Op.borrow 5 7 400 0]

/-- Scenario A state: `scenBorrowed` after `repay(5, 7)` one year
(31536000 s) later. -/
def scenRepaid : LendState :=
  applyOp scenBorrowed (Op.repay 5 7 31536000)

/-- A pool state holding one active loan of 50 at (1, 2), for witnesses. -/
def loanDemo : LendState where
  supportedTokens := fun _ => true
  interestRates := fun _ => 1000
  userDeposits := fun _ _ => 0
  userLoans := fun u t => if u = 1 ∧ t = 2 then ⟨50, 0, .MEDIUM, true⟩ else ⟨0, 0, .LOW, false⟩
  totalDeposits := fun _ => 100
  erc20 := fun _ _ => 1000

/-- Oracle demo: owner 2, updater 1, reader 3 authorized, no tier set. -/
def oracleDemo : OracleState where
  owner := 2
  aiOracleUpdater := 1
  userRiskTiers := fun _ => RiskTier.LOW
  authorizedCallers := fun c => c == 3

/-- State `oracleDemo` after the updater explicitly sets account 5 to LOW. -/
def oracleDemoLow : OracleState :=
  { oracleDemo with userRiskTiers := upd oracleDemo.userRiskTiers 5 RiskTier.LOW }

/-- State `oracleDemo` after the updater sets account 6 to HIGH. -/
def oracleDemoHigh : OracleState :=
  { oracleDemo with userRiskTiers := upd oracleDemo.userRiskTiers 6 RiskTier.HIGH }

/-- Remittance demo: corridor (US, MX) priced at 80 bps, transfer 1
PENDING and transfer 2 COMPLETED, sender 7 funded, treasury 91. -/
def remitDemo : RemitState where
  owner := 90
  supportedTokens := fun _ => true
  corridorFees := fun o d => if o = "US" ∧ d = "MX" then 80 else 0
  defaultFee := 50
  minTransferAmount := 10
  maxTransferAmount := 100000
  transferCounter := 3
  transfers := fun i =>
    if i = 1 then ⟨1, 7, "r1", 4, 500, 4, "US", "BR", 0, .PENDING⟩
    else if i = 2 then ⟨2, 7, "r2", 4, 600, 5, "US", "BR", 0, .COMPLETED⟩
    else defaultTransfer
  userTransfers := fun u => if u = 7 then [1, 2] else []
  treasury := 91
  erc20 := fun _ h => if h = remitAddr then 5000 else if h = 7 then 3000 else 0

/-- Voice demo: owner 80, one active action registered under hash 11. -/
def voiceDemo : VoiceState where
  owner := 80
  actions := fun h => if h = 11 then ⟨21, 4, "pay", true⟩ else ⟨0, 0, "", false⟩
  supportedLanguages := fun l => l == "en" || l == "es" || l == "pt"
  authorizedProcessors := fun _ => false

theorem checkedAdd_some {a b c : Nat} (h : checkedAdd a b = some c) : c = a + b := by
  unfold checkedAdd at h
  split at h <;> simp_all

theorem checkedMul_some {a b c : Nat} (h : checkedMul a b = some c) : c = a * b := by
  unfold checkedMul at h
  split at h <;> simp_all

theorem sum_if_update (A : Finset Nat) (g : Nat → Nat) (a : Nat) (ha : a ∈ A) (v : Nat) :
    (∑ x ∈ A, (if x = a then v else g x)) + g a = (∑ x ∈ A, g x) + v := by
  classical
  have h1 : (∑ x ∈ A, (if x = a then v else g x))
      = v + ∑ x ∈ A.erase a, (if x = a then v else g x) := by
    rw [← Finset.add_sum_erase A _ ha]
    simp
  have h2 : (∑ x ∈ A.erase a, (if x = a then v else g x)) = ∑ x ∈ A.erase a, g x :=
    Finset.sum_congr rfl (fun x hx => if_neg (Finset.ne_of_mem_erase hx))
  have h3 : (∑ x ∈ A, g x) = g a + ∑ x ∈ A.erase a, g x := (Finset.add_sum_erase A g ha).symm
  omega

theorem sum_upd2_apply {β : Type} (A : Finset Nat) (g : Nat → Nat → β) (φ : β → Nat)
    (u tk : Nat) (v : β) (t : Nat) (hu : u ∈ A) :
    (∑ x ∈ A, φ (upd2 g u tk v x t)) + φ (g u t)
      = (∑ x ∈ A, φ (g x t)) + (if t = tk then φ v else φ (g u t)) := by
  rcases eq_or_ne t tk with htk | htk
  · subst htk
    have hx : ∀ x, φ (upd2 g u t v x t) = if x = u then φ v else φ (g x t) := by
      intro x
      by_cases hxu : x = u
      · subst hxu; simp [upd2]
      · simp [upd2, hxu]
    rw [Finset.sum_congr rfl fun x _ => hx x, if_pos rfl]
    exact sum_if_update A (fun x => φ (g x t)) u hu (φ v)
  · have hx : ∀ x, φ (upd2 g u tk v x t) = φ (g x t) := by
      intro x; simp [upd2, htk]
    rw [Finset.sum_congr rfl fun x _ => hx x, if_neg htk]

theorem sum_upd2_nat (A : Finset Nat) (g : Nat → Nat → Nat) (u tk v t : Nat) (hu : u ∈ A) :
    (∑ x ∈ A, upd2 g u tk v x t) + g u t
      = (∑ x ∈ A, g x t) + (if t = tk then v else g u t) :=
  sum_upd2_apply A g (fun n => n) u tk v t hu

theorem sum_upd2_loan (A : Finset Nat) (g : Nat → Nat → Loan) (u tk : Nat) (v : Loan)
    (t : Nat) (hu : u ∈ A) :
    (∑ x ∈ A, loanVal (upd2 g u tk v x t)) + loanVal (g u t)
      = (∑ x ∈ A, loanVal (g x t)) + (if t = tk then loanVal v else loanVal (g u t)) :=
  sum_upd2_apply A g loanVal u tk v t hu

theorem applyOp_deposit_cases (s : LendState) (u tk a tm : Nat) :
    applyOp s (Op.deposit u tk a tm) = s ∨
    ∃ e1, applyOp s (Op.deposit u tk a tm) =
      { s with
        erc20 := e1
        userDeposits := upd2 s.userDeposits u tk (s.userDeposits u tk + a)
        totalDeposits := upd s.totalDeposits tk (s.totalDeposits tk + a) } := by
  by_cases h1 : s.supportedTokens tk = false
  · left; simp [applyOp, stepOp, LendState.deposit, h1]
  by_cases h2 : a = 0
  · left; simp [applyOp, stepOp, LendState.deposit, h1, h2]
  cases he : erc20Transfer s.erc20 tk u poolAddr a with
  | none => left; simp [applyOp, stepOp, LendState.deposit, h1, h2, he]
  | some e1 =>
    cases hud : checkedAdd (s.userDeposits u tk) a with
    | none => left; simp [applyOp, stepOp, LendState.deposit, h1, h2, he, hud]
    | some ud =>
      cases htd : checkedAdd (s.totalDeposits tk) a with
      | none => left; simp [applyOp, stepOp, LendState.deposit, h1, h2, he, hud, htd]
      | some td =>
        right
        refine ⟨e1, ?_⟩
        have hud1 := checkedAdd_some hud
        have htd1 := checkedAdd_some htd
        subst hud1 htd1
        simp [applyOp, stepOp, LendState.deposit, h1, h2, he, hud, htd]

theorem applyOp_withdraw_cases (s : LendState) (u tk a tm : Nat) :
    applyOp s (Op.withdraw u tk a tm) = s ∨
    (a ≤ s.userDeposits u tk ∧ a ≤ s.totalDeposits tk ∧
     ∃ e1, applyOp s (Op.withdraw u tk a tm) =
       { s with
         erc20 := e1
         userDeposits := upd2 s.userDeposits u tk (s.userDeposits u tk - a)
         totalDeposits := upd s.totalDeposits tk (s.totalDeposits tk - a) }) := by
  by_cases h1 : a = 0
  · left; simp [applyOp, stepOp, LendState.withdraw, h1]
  by_cases h2 : s.userDeposits u tk < a
  · left; simp [applyOp, stepOp, LendState.withdraw, h1, h2]
  by_cases h3 : s.totalDeposits tk < a
  · left; simp [applyOp, stepOp, LendState.withdraw, h1, h2, h3]
  cases he : erc20Transfer s.erc20 tk poolAddr u a with
  | none => left; simp [applyOp, stepOp, LendState.withdraw, h1, h2, h3, he]
  | some e1 =>
    right
    exact ⟨Nat.le_of_not_lt h2, Nat.le_of_not_lt h3,
      e1, by simp [applyOp, stepOp, LendState.withdraw, h1, h2, h3, he]⟩

theorem applyOp_borrow_cases (s : LendState) (u tk a tm : Nat) :
    applyOp s (Op.borrow u tk a tm) = s ∨
    ((s.userLoans u tk).active = false ∧ a ≤ s.totalDeposits tk ∧
     ∃ e1, applyOp s (Op.borrow u tk a tm) =
       { s with
         erc20 := e1
         userLoans := upd2 s.userLoans u tk ⟨a, tm, RiskTier.MEDIUM, true⟩
         totalDeposits := upd s.totalDeposits tk (s.totalDeposits tk - a) }) := by
  by_cases h1 : s.supportedTokens tk = false
  · left; simp [applyOp, stepOp, LendState.borrow, h1]
  by_cases h2 : a = 0
  · left; simp [applyOp, stepOp, LendState.borrow, h1, h2]
  by_cases h3 : s.totalDeposits tk < a
  · left; simp [applyOp, stepOp, LendState.borrow, h1, h2, h3]
  cases hact : (s.userLoans u tk).active with
  | true => left; simp [applyOp, stepOp, LendState.borrow, h1, h2, h3, hact]
  | false =>
    cases he : erc20Transfer s.erc20 tk poolAddr u a with
    | none => left; simp [applyOp, stepOp, LendState.borrow, h1, h2, h3, hact, he]
    | some e1 =>
      right
      exact ⟨rfl, Nat.le_of_not_lt h3, e1,
        by simp [applyOp, stepOp, LendState.borrow, getRiskTierFromOracle, h1, h2, h3, hact, he]⟩

theorem applyOp_repay_cases (s : LendState) (u tk tm : Nat) :
    applyOp s (Op.repay u tk tm) = s ∨
    ((s.userLoans u tk).active = true ∧
     ∃ i e1, applyOp s (Op.repay u tk tm) =
       { s with
         erc20 := e1
         totalDeposits := upd s.totalDeposits tk
           (s.totalDeposits tk + ((s.userLoans u tk).amount + i))
         userLoans := upd2 s.userLoans u tk
           { s.userLoans u tk with active := false } }) := by
  cases hact : (s.userLoans u tk).active with
  | false => left; simp [applyOp, stepOp, LendState.repay, hact]
  | true =>
    by_cases h2 : tm < (s.userLoans u tk).timestamp
    · left; simp [applyOp, stepOp, LendState.repay, hact, h2]
    cases hi : calculateInterest s.interestRates (s.userLoans u tk).amount
        (tm - (s.userLoans u tk).timestamp) (s.userLoans u tk).riskTier with
    | none => left; simp [applyOp, stepOp, LendState.repay, hact, h2, hi]
    | some interest =>
      cases htr : checkedAdd (s.userLoans u tk).amount interest with
      | none => left; simp [applyOp, stepOp, LendState.repay, hact, h2, hi, htr]
      | some totalRepayment =>
        by_cases h3 : s.erc20 tk u < totalRepayment
        · left; simp [applyOp, stepOp, LendState.repay, hact, h2, hi, htr, h3]
        cases he : erc20Transfer s.erc20 tk u poolAddr totalRepayment with
        | none => left; simp [applyOp, stepOp, LendState.repay, hact, h2, hi, htr, h3, he]
        | some e1 =>
          cases htd : checkedAdd (s.totalDeposits tk) totalRepayment with
          | none => left; simp [applyOp, stepOp, LendState.repay, hact, h2, hi, htr, h3, he, htd]
          | some td =>
            right
            refine ⟨rfl, interest, e1, ?_⟩
            have htr1 := checkedAdd_some htr
            have htd1 := checkedAdd_some htd
            subst htr1 htd1
            simp [applyOp, stepOp, LendState.repay, hact, h2, hi, htr, h3, he, htd]

/-- The ledger relation each pool operation preserves: the pool total plus
active-loan principal can only gain slack (by collected interest) over the
sum of balances, and every operation other than repay preserves the exact
identity. -/
theorem conserve_step (A : Finset Nat) (t : Nat) (op : Op) (hu : op.sender ∈ A)
    (s : LendState) :
    (sumBal A s t ≤ s.totalDeposits t + outstanding A s t →
      sumBal A (applyOp s op) t ≤
        (applyOp s op).totalDeposits t + outstanding A (applyOp s op) t)
    ∧ (op.isRepay = false →
      sumBal A s t = s.totalDeposits t + outstanding A s t →
      sumBal A (applyOp s op) t =
        (applyOp s op).totalDeposits t + outstanding A (applyOp s op) t) := by
  cases op with
  | deposit u tk a tm =>
    simp only [Op.sender] at hu
    rcases applyOp_deposit_cases s u tk a tm with h | ⟨e1, h⟩
    · rw [h]; exact ⟨id, fun _ => id⟩
    · rw [h]
      have hsum := sum_upd2_nat A s.userDeposits u tk (s.userDeposits u tk + a) t hu
      simp only [sumBal, outstanding, upd]
      rcases eq_or_ne t tk with htk | htk
      · subst htk
        rw [if_pos rfl] at hsum ⊢
        constructor
        · intro hle; omega
        · intro _ hle; omega
      · rw [if_neg htk] at hsum ⊢
        constructor
        · intro hle; omega
        · intro _ hle; omega
  | withdraw u tk a tm =>
    simp only [Op.sender] at hu
    rcases applyOp_withdraw_cases s u tk a tm with h | ⟨hba, hta, e1, h⟩
    · rw [h]; exact ⟨id, fun _ => id⟩
    · rw [h]
      have hsum := sum_upd2_nat A s.userDeposits u tk (s.userDeposits u tk - a) t hu
      simp only [sumBal, outstanding, upd]
      rcases eq_or_ne t tk with htk | htk
      · subst htk
        rw [if_pos rfl] at hsum ⊢
        constructor
        · intro hle; omega
        · intro _ hle; omega
      · rw [if_neg htk] at hsum ⊢
        constructor
        · intro hle; omega
        · intro _ hle; omega
  | borrow u tk a tm =>
    simp only [Op.sender] at hu
    rcases applyOp_borrow_cases s u tk a tm with h | ⟨hact, hta, e1, h⟩
    · rw [h]; exact ⟨id, fun _ => id⟩
    · rw [h]
      have hsum := sum_upd2_loan A s.userLoans u tk ⟨a, tm, RiskTier.MEDIUM, true⟩ t hu
      have hv : loanVal ⟨a, tm, RiskTier.MEDIUM, true⟩ = a := by simp [loanVal]
      have hval : loanVal (s.userLoans u tk) = 0 := by simp [loanVal, hact]
      rw [hv] at hsum
      simp only [sumBal, outstanding, upd]
      rcases eq_or_ne t tk with htk | htk
      · subst htk
        rw [if_pos rfl] at hsum ⊢
        rw [hval] at hsum
        constructor
        · intro hle; omega
        · intro _ hle; omega
      · rw [if_neg htk] at hsum ⊢
        constructor
        · intro hle; omega
        · intro _ hle; omega
  | repay u tk tm =>
    refine ⟨?_, fun hf => by simp [Op.isRepay] at hf⟩
    simp only [Op.sender] at hu
    rcases applyOp_repay_cases s u tk tm with h | ⟨hact, i, e1, h⟩
    · rw [h]; exact id
    · rw [h]
      have hsum := sum_upd2_loan A s.userLoans u tk
        { s.userLoans u tk with active := false } t hu
      have hval : loanVal (s.userLoans u tk) = (s.userLoans u tk).amount := by
        simp [loanVal, hact]
      have hnew : loanVal { s.userLoans u tk with active := false } = 0 := by
        simp [loanVal]
      rw [hnew] at hsum
      dsimp only at hsum
      simp only [sumBal, outstanding, upd]
      rcases eq_or_ne t tk with htk | htk
      · subst htk
        rw [if_pos rfl] at hsum ⊢
        rw [hval] at hsum
        intro hle; omega
      · rw [if_neg htk] at hsum ⊢
        intro hle; omega

/-- Trace-level conservation: along any operation sequence whose senders
lie in `A`, the slack inequality is preserved, and the exact identity is
preserved when the trace contains no repay. -/
theorem conserve_exec (ops : List Op) :
    ∀ (s : LendState) (A : Finset Nat) (t : Nat),
      (∀ op ∈ ops, op.sender ∈ A) →
      ((sumBal A s t ≤ s.totalDeposits t + outstanding A s t →
          sumBal A (exec s ops) t ≤
            (exec s ops).totalDeposits t + outstanding A (exec s ops) t)
      ∧ ((∀ op ∈ ops, op.isRepay = false) →
          sumBal A s t = s.totalDeposits t + outstanding A s t →
          sumBal A (exec s ops) t =
            (exec s ops).totalDeposits t + outstanding A (exec s ops) t)) := by
  induction ops with
  | nil =>
    intro s A t _
    exact ⟨id, fun _ => id⟩
  | cons op rest ih =>
    intro s A t hA
    have hsender : op.sender ∈ A := hA op (List.mem_cons_self op rest)
    have hrest : ∀ o ∈ rest, o.sender ∈ A := fun o ho => hA o (List.mem_cons_of_mem op ho)
    have hstep := conserve_step A t op hsender s
    have hih := ih (applyOp s op) A t hrest
    constructor
    · intro hle
      exact hih.1 (hstep.1 hle)
    · intro hnr heq
      have hopnr : op.isRepay = false := hnr op (List.mem_cons_self op rest)
      have hrestnr : ∀ o ∈ rest, o.isRepay = false := fun o ho =>
        hnr o (List.mem_cons_of_mem op ho)
      exact hih.2 hrestnr (hstep.2 hopnr heq)

/-- C1 (amended).  The claim's plain equality
`sum(balances) = totalDeposits` does not survive `borrow`/`repay`: `borrow`
debits the total-deposits counter without touching any balance, and
`repay` credits it with principal plus interest.  What holds after any
sequence of deposit/withdraw/borrow/repay from the empty ledger, for every
asset `t` and any account set `A` covering the trace's senders (accounts
outside the trace keep their initial zero balance), is: the balance sum
never exceeds the total-deposits counter plus the principal of active
loans, and equality holds whenever the trace contains no repay. -/
theorem conservation_slack_and_norepay_identity (sup : Nat → Bool)
    (bal : Nat → Nat → Nat) (ops : List Op) (A : Finset Nat) (t : Nat)
    (hA : ∀ op ∈ ops, op.sender ∈ A) :
    sumBal A (exec (initLend sup bal) ops) t ≤
      (exec (initLend sup bal) ops).totalDeposits t +
        outstanding A (exec (initLend sup bal) ops) t
    ∧ ((∀ op ∈ ops, op.isRepay = false) →
      sumBal A (exec (initLend sup bal) ops) t =
        (exec (initLend sup bal) ops).totalDeposits t +
          outstanding A (exec (initLend sup bal) ops) t) := by
  have h0 : sumBal A (initLend sup bal) t =
      (initLend sup bal).totalDeposits t + outstanding A (initLend sup bal) t := by
    simp [sumBal, outstanding, initLend, loanVal]
  obtain ⟨h1, h2⟩ := conserve_exec ops (initLend sup bal) A t hA
  exact ⟨h1 (le_of_eq h0), fun hnr => h2 hnr h0⟩

/-- C1 counterexample.  From the empty ledger: `deposit(5, 7, 1000)` then
`borrow(5, 7, 400)`.  Account 5 is the only account the trace touches, so
the sum of all per-account balances of asset 7 is 1000, while the
total-deposits counter reads 600: the claimed conservation equality is
false after a borrow. -/
theorem conservation_claim_fails_after_borrow :
    sumBal {5} scenBorrowed 7 = 1000 ∧ scenBorrowed.totalDeposits 7 = 600 ∧
      sumBal {5} scenBorrowed 7 ≠ scenBorrowed.totalDeposits 7 := by
  refine ⟨?_, ?_, ?_⟩ <;> decide

/-- Witness for C1's amended theorem at the deposit-then-borrow trace. -/
theorem conservation_slack_and_norepay_identity_witness :
    (∀ op ∈ [Op.deposit 5 7 1000 0, Op.borrow 5 7 400 0],
      op.sender ∈ ({5} : Finset Nat))
    ∧ (sumBal {5} scenBorrowed 7 ≤
        scenBorrowed.totalDeposits 7 + outstanding {5} scenBorrowed 7
      ∧ ((∀ op ∈ [Op.deposit 5 7 1000 0, Op.borrow 5 7 400 0], op.isRepay = false) →
        sumBal {5} scenBorrowed 7 =
          scenBorrowed.totalDeposits 7 + outstanding {5} scenBorrowed 7)) :=
  ⟨by decide,
   conservation_slack_and_norepay_identity (fun _ => true) scenBal
     [Op.deposit 5 7 1000 0, Op.borrow 5 7 400 0] {5} 7 (by decide)⟩

/-- C2 counterexample.  Scenario A on the code: deposit 1000 of asset 7 by
account 5, borrow 400 (MEDIUM tier, annual rate 1000 bps), repay exactly
one year later.  The repayment drawn from the borrower is 439, not the
claimed 440, and the pool total afterwards is 1039, not 1040: the
per-second rate `1000 * 1e18 / 31536000 / 10000` truncates twice, so one
year of interest on 400 evaluates to 39. -/
theorem scenarioA_claim_fails :
    scenBorrowed.erc20 7 5 = 1400 ∧ scenRepaid.erc20 7 5 = 961 ∧
    scenBorrowed.erc20 7 5 - scenRepaid.erc20 7 5 = 439 ∧ (439 : Nat) ≠ 440 ∧
    scenRepaid.totalDeposits 7 = 1039 ∧ (1039 : Nat) ≠ 1040 := by
  refine ⟨?_, ?_, ?_, ?_, ?_, ?_⟩ <;> decide

/-- C2 (amended).  In Scenario A the interest evaluates to 39 (double
integer truncation of the per-second rate), `repay` succeeds and draws
exactly 439 from the borrower (439 = 400 principal + 39 interest; with
only 438 on hand it reverts with the insufficient-funds error), and the
pool's total-deposits counter for asset 7 ends at 1000 - 400 + 439 = 1039;
the loan is left inactive. -/
theorem scenarioA_amended :
    exceptOk (stepOp scenBorrowed (Op.repay 5 7 31536000)) = true ∧
    calculateInterest scenBorrowed.interestRates 400 31536000 RiskTier.MEDIUM = some 39 ∧
    scenBorrowed.erc20 7 5 = 1400 ∧ scenRepaid.erc20 7 5 = 1400 - 439 ∧
    scenRepaid.totalDeposits 7 = 1039 ∧ (scenRepaid.userLoans 5 7).active = false ∧
    stepOp { scenBorrowed with erc20 := upd2 scenBorrowed.erc20 7 5 438 }
        (Op.repay 5 7 31536000)
      = .error ⟨.insufficientFunds, "Insufficient balance for repayment"⟩ :=
  ⟨rfl, rfl, rfl, rfl, rfl, rfl, rfl⟩

/-- C4.  Loan lifecycle per (account, asset): the storage holds a single
loan record per key, whose `active` flag moves false → true only through a
successful `borrow` by that account on that asset and true → false only
through a successful `repay`; a `borrow` while a loan is active reverts
with the duplicate-loan `StateError` (and never succeeds), and a `repay`
with no active loan reverts with the no-loan `StateError`. -/
theorem loan_lifecycle (s : LendState) (u tk : Nat) :
    (∀ a tm, (s.userLoans u tk).active = true →
      s.supportedTokens tk = true → a ≠ 0 → a ≤ s.totalDeposits tk →
      stepOp s (Op.borrow u tk a tm) = .error ⟨.state, "Existing loan active"⟩)
    ∧ (∀ a tm, (s.userLoans u tk).active = true →
      exceptOk (stepOp s (Op.borrow u tk a tm)) = false)
    ∧ (∀ tm, (s.userLoans u tk).active = false →
      stepOp s (Op.repay u tk tm) = .error ⟨.state, "No active loan"⟩)
    ∧ (∀ op, (s.userLoans u tk).active = false →
      ((applyOp s op).userLoans u tk).active = true →
      ∃ a tm, op = Op.borrow u tk a tm)
    ∧ (∀ op, (s.userLoans u tk).active = true →
      ((applyOp s op).userLoans u tk).active = false →
      ∃ tm, op = Op.repay u tk tm) := by
  refine ⟨?_, ?_, ?_, ?_, ?_⟩
  · intro a tm hact hsup ha hliq
    have h3 : ¬ s.totalDeposits tk < a := Nat.not_lt.mpr hliq
    simp [stepOp, LendState.borrow, hsup, hact, ha, h3]
  · intro a tm hact
    simp only [stepOp, LendState.borrow, hact]
    split
    · rfl
    split
    · rfl
    split
    · rfl
    simp [exceptOk]
  · intro tm hact
    simp only [stepOp, LendState.repay]
    rw [if_pos hact]
  · intro op hbefore hafter
    cases op with
    | deposit u1 tk1 a tm =>
      exfalso
      rcases applyOp_deposit_cases s u1 tk1 a tm with h | ⟨e1, h⟩ <;>
        rw [h] at hafter <;> rw [hbefore] at hafter <;> exact Bool.noConfusion hafter
    | withdraw u1 tk1 a tm =>
      exfalso
      rcases applyOp_withdraw_cases s u1 tk1 a tm with h | ⟨h1, h2, e1, h⟩ <;>
        rw [h] at hafter <;> rw [hbefore] at hafter <;> exact Bool.noConfusion hafter
    | borrow u1 tk1 a tm =>
      rcases applyOp_borrow_cases s u1 tk1 a tm with h | ⟨hact1, h2, e1, h⟩
      · exfalso
        rw [h, hbefore] at hafter
        exact Bool.noConfusion hafter
      · rw [h] at hafter
        dsimp only [upd2] at hafter
        by_cases hk : u = u1 ∧ tk = tk1
        · exact ⟨a, tm, by rw [hk.1, hk.2]⟩
        · exfalso
          rw [if_neg hk, hbefore] at hafter
          exact Bool.noConfusion hafter
    | repay u1 tk1 tm =>
      exfalso
      rcases applyOp_repay_cases s u1 tk1 tm with h | ⟨hact1, i, e1, h⟩
      · rw [h, hbefore] at hafter
        exact Bool.noConfusion hafter
      · rw [h] at hafter
        dsimp only [upd2] at hafter
        by_cases hk : u = u1 ∧ tk = tk1
        · rw [if_pos hk] at hafter
          exact Bool.noConfusion hafter
        · rw [if_neg hk, hbefore] at hafter
          exact Bool.noConfusion hafter
  · intro op hbefore hafter
    cases op with
    | deposit u1 tk1 a tm =>
      exfalso
      rcases applyOp_deposit_cases s u1 tk1 a tm with h | ⟨e1, h⟩ <;>
        rw [h] at hafter <;> rw [hbefore] at hafter <;> exact Bool.noConfusion hafter
    | withdraw u1 tk1 a tm =>
      exfalso
      rcases applyOp_withdraw_cases s u1 tk1 a tm with h | ⟨h1, h2, e1, h⟩ <;>
        rw [h] at hafter <;> rw [hbefore] at hafter <;> exact Bool.noConfusion hafter
    | borrow u1 tk1 a tm =>
      exfalso
      rcases applyOp_borrow_cases s u1 tk1 a tm with h | ⟨hact1, h2, e1, h⟩
      · rw [h, hbefore] at hafter
        exact Bool.noConfusion hafter
      · rw [h] at hafter
        dsimp only [upd2] at hafter
        by_cases hk : u = u1 ∧ tk = tk1
        · rw [if_pos hk] at hafter
          exact Bool.noConfusion hafter
        · rw [if_neg hk, hbefore] at hafter
          exact Bool.noConfusion hafter
    | repay u1 tk1 tm =>
      rcases applyOp_repay_cases s u1 tk1 tm with h | ⟨hact1, i, e1, h⟩
      · exfalso
        rw [h, hbefore] at hafter
        exact Bool.noConfusion hafter
      · rw [h] at hafter
        dsimp only [upd2] at hafter
        by_cases hk : u = u1 ∧ tk = tk1
        · exact ⟨tm, by rw [hk.1, hk.2]⟩
        · exfalso
          rw [if_neg hk, hbefore] at hafter
          exact Bool.noConfusion hafter

/-- Witness for C4 at a state holding an active loan of 50 at (1, 2). -/
theorem loan_lifecycle_witness :
    ((loanDemo.userLoans 1 2).active = true ∧ loanDemo.supportedTokens 2 = true ∧
      (10 : Nat) ≠ 0 ∧ 10 ≤ loanDemo.totalDeposits 2 ∧
      (loanDemo.userLoans 3 2).active = false) ∧
    stepOp loanDemo (Op.borrow 1 2 10 0) = .error ⟨.state, "Existing loan active"⟩ ∧
    stepOp loanDemo (Op.repay 3 2 0) = .error ⟨.state, "No active loan"⟩ :=
  ⟨⟨by decide, by decide, by decide, by decide, by decide⟩,
   (loan_lifecycle loanDemo 1 2).1 10 0 (by decide) (by decide) (by decide) (by decide),
   (loan_lifecycle loanDemo 3 2).2.2.1 0 (by decide)⟩

/-- C3 counterexample.  The oracle updater explicitly sets account 5 to
LOW; an authorized reader (account 3) then reads the tier and receives
MEDIUM (ordinal 1), not LOW (ordinal 0): `getRiskTier` cannot distinguish
an explicitly assigned LOW from the never-set storage default, because
LOW is the enum's zero value. -/
theorem getRiskTier_low_collision :
    updateRiskTier oracleDemo 1 5 RiskTier.LOW = .ok oracleDemoLow ∧
    oracleDemoLow.userRiskTiers 5 = RiskTier.LOW ∧
    oracleDemoLow.authorizedCallers 3 = true ∧
    getRiskTier oracleDemoLow 3 5 = .ok 1 ∧
    RiskTier.toUint8 RiskTier.LOW = 0 ∧ (1 : Nat) ≠ 0 :=
  ⟨rfl, rfl, rfl, rfl, rfl, by decide⟩

/-- C3 (amended).  `getRiskTier` rejects unauthorized callers with the
authorization error; for an authorized reader it returns the stored tier
when that tier is MEDIUM or HIGH, and returns MEDIUM both for the zero
address and whenever the stored tier is LOW — which covers the never-set
default and an explicitly assigned LOW alike, the two being the same
storage value. -/
theorem getRiskTier_behavior (s : OracleState) (caller user : Nat) :
    (¬(s.authorizedCallers caller = true ∨ caller = s.owner) →
      getRiskTier s caller user = .error ⟨.authorization, "Not authorized"⟩)
    ∧ ((s.authorizedCallers caller = true ∨ caller = s.owner) →
      user ≠ 0 → s.userRiskTiers user = RiskTier.MEDIUM →
      getRiskTier s caller user = .ok 1)
    ∧ ((s.authorizedCallers caller = true ∨ caller = s.owner) →
      user ≠ 0 → s.userRiskTiers user = RiskTier.HIGH →
      getRiskTier s caller user = .ok 2)
    ∧ ((s.authorizedCallers caller = true ∨ caller = s.owner) →
      s.userRiskTiers user = RiskTier.LOW →
      getRiskTier s caller user = .ok 1)
    ∧ ((s.authorizedCallers caller = true ∨ caller = s.owner) →
      user = 0 → getRiskTier s caller user = .ok 1) := by
  refine ⟨?_, ?_, ?_, ?_, ?_⟩
  · intro hna
    simp [getRiskTier, hna]
  · intro hauth hu hmed
    simp [getRiskTier, hauth, hu, hmed, RiskTier.toUint8]
  · intro hauth hu hhigh
    simp [getRiskTier, hauth, hu, hhigh, RiskTier.toUint8]
  · intro hauth hlow
    simp [getRiskTier, hauth, hlow, RiskTier.toUint8]
  · intro hauth hz
    simp [getRiskTier, hauth, hz, RiskTier.toUint8]

/-- Witness for C3's amended theorem: unauthorized read rejected on
`oracleDemo`; authorized read of a HIGH tier returns ordinal 2. -/
theorem getRiskTier_behavior_witness :
    (¬(oracleDemo.authorizedCallers 9 = true ∨ (9 : Nat) = oracleDemo.owner)) ∧
    getRiskTier oracleDemo 9 5 = .error ⟨.authorization, "Not authorized"⟩ ∧
    ((oracleDemoHigh.authorizedCallers 3 = true ∨ (3 : Nat) = oracleDemoHigh.owner) ∧
      (6 : Nat) ≠ 0 ∧ oracleDemoHigh.userRiskTiers 6 = RiskTier.HIGH) ∧
    getRiskTier oracleDemoHigh 3 6 = .ok 2 :=
  ⟨by decide,
   (getRiskTier_behavior oracleDemo 9 5).1 (by decide),
   ⟨by decide, by decide, by decide⟩,
   (getRiskTier_behavior oracleDemoHigh 3 6).2.2.1 (by decide) (by decide) (by decide)⟩

/-- C5.  A transfer whose status is COMPLETED or CANCELLED is terminal:
`completeTransfer` and `cancelTransfer` on it revert for every caller (the
status precondition can never hold again), and a revert leaves the stored
record — in particular its status — untouched, since an `Except.error`
result carries no state. -/
theorem transfer_terminal (s : RemitState) (transferId caller : Nat)
    (h : (s.transfers transferId).status = .COMPLETED ∨
         (s.transfers transferId).status = .CANCELLED) :
    (∃ e, completeTransfer s caller transferId = .error e)
    ∧ (∃ e, cancelTransfer s caller transferId = .error e) := by
  have hnp : (s.transfers transferId).status ≠ .PENDING := by
    rcases h with h | h <;> rw [h] <;> decide
  constructor
  · unfold completeTransfer
    repeat' split
    all_goals exact ⟨_, rfl⟩
  · unfold cancelTransfer
    repeat' split
    all_goals exact ⟨_, rfl⟩

/-- Witness for C5 at `remitDemo`'s COMPLETED transfer 2, arbitrary
caller 55. -/
theorem transfer_terminal_witness :
    ((remitDemo.transfers 2).status = .COMPLETED ∨
      (remitDemo.transfers 2).status = .CANCELLED) ∧
    ((∃ e, completeTransfer remitDemo 55 2 = .error e) ∧
     (∃ e, cancelTransfer remitDemo 55 2 = .error e)) :=
  ⟨by decide, transfer_terminal remitDemo 2 55 (by decide)⟩

/-- C6.  Cancelling a PENDING transfer as its sender or as the owner
succeeds, marks it CANCELLED, and moves exactly the escrowed principal —
not the fee, which was already forwarded at initiation — from the
contract's escrow back to the sender; a second `cancelTransfer` on the
same id then reverts with the not-pending `StateError`, whoever calls it.
(The contract must hold at least the principal, and the sender must be an
account other than the contract itself, or the refund is a self-transfer.) -/
theorem cancel_pending_refunds_principal (s : RemitState) (transferId caller : Nat)
    (hid : (s.transfers transferId).id = transferId)
    (hstat : (s.transfers transferId).status = .PENDING)
    (hauth : caller = (s.transfers transferId).sender ∨ caller = s.owner)
    (hbal : (s.transfers transferId).amount ≤
      s.erc20 (s.transfers transferId).tokenAddress remitAddr)
    (hsender : (s.transfers transferId).sender ≠ remitAddr) :
    ∃ s1, cancelTransfer s caller transferId = .ok s1
      ∧ (s1.transfers transferId).status = .CANCELLED
      ∧ s1.erc20 (s.transfers transferId).tokenAddress (s.transfers transferId).sender
          = s.erc20 (s.transfers transferId).tokenAddress (s.transfers transferId).sender
            + (s.transfers transferId).amount
      ∧ s1.erc20 (s.transfers transferId).tokenAddress remitAddr
          + (s.transfers transferId).amount
          = s.erc20 (s.transfers transferId).tokenAddress remitAddr
      ∧ ∀ caller2, cancelTransfer s1 caller2 transferId =
          .error ⟨.state, "Transfer not pending"⟩ := by
  have hrun : cancelTransfer s caller transferId = .ok { s with
      transfers := upd s.transfers transferId
        { s.transfers transferId with status := .CANCELLED }
      erc20 := upd2
        (upd2 s.erc20 (s.transfers transferId).tokenAddress remitAddr
          (s.erc20 (s.transfers transferId).tokenAddress remitAddr
            - (s.transfers transferId).amount))
        (s.transfers transferId).tokenAddress (s.transfers transferId).sender
        ((upd2 s.erc20 (s.transfers transferId).tokenAddress remitAddr
          (s.erc20 (s.transfers transferId).tokenAddress remitAddr
            - (s.transfers transferId).amount))
          (s.transfers transferId).tokenAddress (s.transfers transferId).sender
          + (s.transfers transferId).amount) } := by
    unfold cancelTransfer erc20Transfer
    rw [if_neg (by simp [hid]), if_neg (by simp [hstat]), if_neg (not_not_intro hauth),
        if_pos hbal]
  refine ⟨_, hrun, ?_, ?_, ?_, ?_⟩
  · simp [upd]
  · simp [upd2, hsender]
  · have h1 : remitAddr ≠ (s.transfers transferId).sender := Ne.symm hsender
    simp [upd2, h1]
    omega
  · intro caller2
    unfold cancelTransfer
    rw [if_neg (by simp [upd, hid]), if_pos (by simp [upd])]

/-- Witness for C6 at `remitDemo`'s PENDING transfer 1, cancelled by its
sender (account 7). -/
theorem cancel_pending_refunds_principal_witness :
    ((remitDemo.transfers 1).id = 1 ∧ (remitDemo.transfers 1).status = .PENDING ∧
      ((7 : Nat) = (remitDemo.transfers 1).sender ∨ (7 : Nat) = remitDemo.owner) ∧
      (remitDemo.transfers 1).amount ≤
        remitDemo.erc20 (remitDemo.transfers 1).tokenAddress remitAddr ∧
      (remitDemo.transfers 1).sender ≠ remitAddr) ∧
    (∃ s1, cancelTransfer remitDemo 7 1 = .ok s1
      ∧ (s1.transfers 1).status = .CANCELLED
      ∧ s1.erc20 (remitDemo.transfers 1).tokenAddress (remitDemo.transfers 1).sender
          = remitDemo.erc20 (remitDemo.transfers 1).tokenAddress
              (remitDemo.transfers 1).sender
            + (remitDemo.transfers 1).amount
      ∧ s1.erc20 (remitDemo.transfers 1).tokenAddress remitAddr
          + (remitDemo.transfers 1).amount
          = remitDemo.erc20 (remitDemo.transfers 1).tokenAddress remitAddr
      ∧ ∀ caller2, cancelTransfer s1 caller2 1 =
          .error ⟨.state, "Transfer not pending"⟩) :=
  ⟨⟨by decide, by decide, by decide, by decide, by decide⟩,
   cancel_pending_refunds_principal remitDemo 1 7 (by decide) (by decide) (by decide)
     (by decide) (by decide)⟩

/-- C7.  With the (US, MX) corridor priced at 80 basis points and the
amount 1000 inside the configured limits, `initiateTransfer` of 1000
computes a fee of exactly 8 (= 1000 * 80 / 10000), stores the transfer as
PENDING with amount 1000 and fee 8 under the current counter value,
escrows 1008 from the sender (the contract's balance ends up 1000 higher
after it immediately forwards the 8-unit fee to the treasury), and the
treasury receives exactly 8 in the same operation. -/
theorem scenarioB_corridor_fee (s : RemitState) (sender tok time : Nat) (r : String)
    (hsup : s.supportedTokens tok = true)
    (hmin : s.minTransferAmount ≤ 1000)
    (hmax : 1000 ≤ s.maxTransferAmount)
    (hcorr : s.corridorFees "US" "MX" = 80)
    (hr : r ≠ "")
    (hbal : 1008 ≤ s.erc20 tok sender)
    (hcnt : s.transferCounter + 1 < U256)
    (hs1 : sender ≠ remitAddr)
    (ht1 : s.treasury ≠ remitAddr)
    (ht2 : s.treasury ≠ sender) :
    ∃ s1, initiateTransfer s sender tok 1000 r "US" "MX" time = .ok (s1, s.transferCounter)
      ∧ (s1.transfers s.transferCounter).fee = 8
      ∧ (s1.transfers s.transferCounter).amount = 1000
      ∧ (s1.transfers s.transferCounter).status = .PENDING
      ∧ (s1.transfers s.transferCounter).sender = sender
      ∧ s1.erc20 tok sender + 1008 = s.erc20 tok sender
      ∧ s1.erc20 tok s.treasury = s.erc20 tok s.treasury + 8
      ∧ s1.erc20 tok remitAddr = s.erc20 tok remitAddr + 1000 := by
  have hmin2 : ¬(1000 < s.minTransferAmount) := Nat.not_lt.mpr hmin
  have hmax2 : ¬(s.maxTransferAmount < 1000) := Nat.not_lt.mpr hmax
  have hbal2 : ¬(s.erc20 tok sender < 1008) := Nat.not_lt.mpr hbal
  have hrs : remitAddr ≠ sender := Ne.symm hs1
  have hrt : remitAddr ≠ s.treasury := Ne.symm ht1
  have hst : sender ≠ s.treasury := Ne.symm ht2
  have hfee : calculateFee s "US" "MX" 1000 = some 8 := by
    norm_num [calculateFee, hcorr, checkedMul, U256]
  have hadd : checkedAdd 1000 8 = some 1008 := by
    norm_num [checkedAdd, U256]
  have hcnt2 : checkedAdd s.transferCounter 1 = some (s.transferCounter + 1) := by
    simp [checkedAdd, hcnt]
  refine ⟨{ s with
      transferCounter := s.transferCounter + 1
      transfers := upd s.transfers s.transferCounter
        ⟨s.transferCounter, sender, r, tok, 1000, 8, "US", "MX", time, .PENDING⟩
      userTransfers := upd s.userTransfers sender
        (s.userTransfers sender ++ [s.transferCounter])
      erc20 := fun t h =>
        if t = tok ∧ h = s.treasury then s.erc20 tok s.treasury + 8
        else if t = tok ∧ h = remitAddr then s.erc20 tok remitAddr + 1000
        else if t = tok ∧ h = sender then s.erc20 tok sender - 1008
        else s.erc20 t h }, ?_, ?_, ?_, ?_, ?_, ?_, ?_, ?_⟩
  · simp only [initiateTransfer, hsup, hmin2, hmax2, hr, hfee, hadd, hbal2, hcnt2]
    norm_num
    unfold erc20Transfer
    rw [if_pos hbal, if_neg (by decide), if_neg (by decide)]
    dsimp only
    have hle : (8 : Nat) ≤ upd2 (upd2 s.erc20 tok sender (s.erc20 tok sender - 1008)) tok
        remitAddr (upd2 s.erc20 tok sender (s.erc20 tok sender - 1008) tok remitAddr + 1008)
        tok remitAddr := by
      simp [upd2, hrs]
    rw [if_pos hle]
    dsimp only
    simp only [Except.ok.injEq, Prod.mk.injEq]
    refine ⟨?_, trivial⟩
    congr 1
    funext t h
    simp only [upd2]
    by_cases c1 : t = tok ∧ h = s.treasury
    · obtain ⟨rfl, rfl⟩ := c1
      simp [ht1, ht2, hrt, hst]
    · by_cases c2 : t = tok ∧ h = remitAddr
      · obtain ⟨rfl, rfl⟩ := c2
        simp [c1, hrs, hrt]
      · by_cases c3 : t = tok ∧ h = sender
        · obtain ⟨rfl, rfl⟩ := c3
          simp [c1, c2, hs1, hst]
        · simp [c1, c2, c3]
  · simp [upd]
  · simp [upd]
  · simp [upd]
  · simp [upd]
  · simp [hst, hs1]
    omega
  · simp
  · simp [hrt, hrs]

/-- Witness for C7 at `remitDemo` (corridor US → MX at 80 bps, sender 7,
token 4). -/
theorem scenarioB_corridor_fee_witness :
    (remitDemo.supportedTokens 4 = true ∧ remitDemo.minTransferAmount ≤ 1000 ∧
      1000 ≤ remitDemo.maxTransferAmount ∧ remitDemo.corridorFees "US" "MX" = 80 ∧
      ("rx" : String) ≠ "" ∧ 1008 ≤ remitDemo.erc20 4 7 ∧
      remitDemo.transferCounter + 1 < U256 ∧ (7 : Nat) ≠ remitAddr ∧
      remitDemo.treasury ≠ remitAddr ∧ remitDemo.treasury ≠ 7) ∧
    (∃ s1, initiateTransfer remitDemo 7 4 1000 "rx" "US" "MX" 9 =
        .ok (s1, remitDemo.transferCounter)
      ∧ (s1.transfers remitDemo.transferCounter).fee = 8
      ∧ (s1.transfers remitDemo.transferCounter).amount = 1000
      ∧ (s1.transfers remitDemo.transferCounter).status = .PENDING
      ∧ (s1.transfers remitDemo.transferCounter).sender = 7
      ∧ s1.erc20 4 7 + 1008 = remitDemo.erc20 4 7
      ∧ s1.erc20 4 remitDemo.treasury = remitDemo.erc20 4 remitDemo.treasury + 8
      ∧ s1.erc20 4 remitAddr = remitDemo.erc20 4 remitAddr + 1000) :=
  ⟨⟨by decide, by decide, by decide, by decide, by decide, by decide, by decide,
    by decide, by decide, by decide⟩,
   scenarioB_corridor_fee remitDemo 7 4 9 "rx" (by decide) (by decide) (by decide)
     (by decide) (by decide) (by decide) (by decide) (by decide) (by decide) (by decide)⟩

/-- C8.  `calculateFee` (the spec's `quoteFee`) depends only on the stored
fee configuration for the queried corridor and the amount: two states
agreeing on that corridor's rate and the default rate give identical
results (in particular two calls in one state do), the fee of amount 0 is
0, and the result is `amount * rate / 10000` with the corridor-specific
rate when one is present (stored nonzero) and the default rate otherwise,
whenever the product stays inside uint256. -/
theorem quoteFee_pure_and_formula :
    (∀ (s s1 : RemitState) (o d : String) (a : Nat),
      s.corridorFees o d = s1.corridorFees o d → s.defaultFee = s1.defaultFee →
      calculateFee s o d a = calculateFee s1 o d a)
    ∧ (∀ (s : RemitState) (o d : String), calculateFee s o d 0 = some 0)
    ∧ (∀ (s : RemitState) (o d : String) (a : Nat),
      s.corridorFees o d ≠ 0 → a * s.corridorFees o d < U256 →
      calculateFee s o d a = some (a * s.corridorFees o d / 10000))
    ∧ (∀ (s : RemitState) (o d : String) (a : Nat),
      s.corridorFees o d = 0 → a * s.defaultFee < U256 →
      calculateFee s o d a = some (a * s.defaultFee / 10000)) := by
  refine ⟨?_, ?_, ?_, ?_⟩
  · intro s s1 o d a h1 h2
    simp [calculateFee, h1, h2]
  · intro s o d
    norm_num [calculateFee, checkedMul, U256]
  · intro s o d a h1 h2
    simp [calculateFee, checkedMul, h1, h2]
  · intro s o d a h1 h2
    simp [calculateFee, checkedMul, h1, h2]

/-- Witness for C8 at `remitDemo`: corridor rate 80 gives 8 per 1000,
an unpriced corridor falls back to the default 50 (10 per 2000), and the
zero amount is free. -/
theorem quoteFee_pure_and_formula_witness :
    (remitDemo.corridorFees "US" "MX" ≠ 0 ∧
      1000 * remitDemo.corridorFees "US" "MX" < U256 ∧
      remitDemo.corridorFees "DE" "JP" = 0 ∧ 2000 * remitDemo.defaultFee < U256) ∧
    calculateFee remitDemo "US" "MX" 1000 =
      some (1000 * remitDemo.corridorFees "US" "MX" / 10000) ∧
    calculateFee remitDemo "DE" "JP" 2000 =
      some (2000 * remitDemo.defaultFee / 10000) ∧
    calculateFee remitDemo "US" "MX" 0 = some 0 :=
  ⟨⟨by decide, by decide, by decide, by decide⟩,
   quoteFee_pure_and_formula.2.2.1 remitDemo "US" "MX" 1000 (by decide) (by decide),
   quoteFee_pure_and_formula.2.2.2 remitDemo "DE" "JP" 2000 (by decide) (by decide),
   quoteFee_pure_and_formula.2.1 remitDemo "US" "MX"⟩

/-- C9.  `generateCommandHash` is a pure function of the language and
command strings, so identical inputs always yield the identical 256-bit
key; and `registerAction` by the owner on a hash whose action is already
active reverts with the duplicate-registration `StateError` (with the
other input validations passing), leaving the stored action untouched
since a revert changes no state. -/
theorem hashCommand_deterministic_and_duplicate_rejected :
    (∀ (l c l1 c1 : String), l = l1 → c = c1 →
      generateCommandHash l c = generateCommandHash l1 c1)
    ∧ (∀ (s : VoiceState) (caller commandHash tc fs : Nat) (d : String),
      caller = s.owner → commandHash ≠ 0 → tc ≠ 0 → fs ≠ 0 → d ≠ "" →
      (s.actions commandHash).active = true →
      registerAction s caller commandHash tc fs d =
        .error ⟨.state, "Command already registered"⟩) := by
  constructor
  · intro l c l1 c1 h1 h2
    rw [h1, h2]
  · intro s caller commandHash tc fs d hc hh htc hfs hd hact
    simp [registerAction, hc, hh, htc, hfs, hd, hact]

/-- Witness for C9: hash determinism on a concrete command, and duplicate
registration of `voiceDemo`'s active hash 11 rejected. -/
theorem hashCommand_deterministic_and_duplicate_rejected_witness :
    ((80 : Nat) = voiceDemo.owner ∧ (11 : Nat) ≠ 0 ∧ (21 : Nat) ≠ 0 ∧
      (4 : Nat) ≠ 0 ∧ ("x" : String) ≠ "" ∧ (voiceDemo.actions 11).active = true) ∧
    generateCommandHash "en" "send money" = generateCommandHash "en" "send money" ∧
    registerAction voiceDemo 80 11 21 4 "x" =
      .error ⟨.state, "Command already registered"⟩ :=
  ⟨⟨by decide, by decide, by decide, by decide, by decide, by decide⟩,
   hashCommand_deterministic_and_duplicate_rejected.1 "en" "send money" "en" "send money"
     rfl rfl,
   hashCommand_deterministic_and_duplicate_rejected.2 voiceDemo 80 11 21 4 "x"
     (by decide) (by decide) (by decide) (by decide) (by decide) (by decide)⟩

/-- C10.  Explicitly setting a corridor's rate to 0 basis points stores 0,
which `calculateFee` cannot distinguish from an unset corridor: the fee
for that corridor is computed from the default rate, so a corridor cannot
be made fee-free this way while the default rate is positive. -/
theorem corridor_zero_rate_uses_default (s : RemitState) (caller : Nat)
    (o d : String) (a : Nat)
    (hc : caller = s.owner) (ho : o ≠ "") (hd : d ≠ "") :
    ∃ s1, updateCorridorFee s caller o d 0 = .ok s1
      ∧ s1.corridorFees o d = 0
      ∧ s1.defaultFee = s.defaultFee
      ∧ (a * s.defaultFee < U256 →
        calculateFee s1 o d a = some (a * s.defaultFee / 10000)) := by
  refine ⟨{ s with corridorFees := upd2 s.corridorFees o d 0 }, ?_, ?_, rfl, ?_⟩
  · simp [updateCorridorFee, hc, ho, hd]
  · simp [upd2]
  · intro hov
    simp [calculateFee, upd2, checkedMul, hov]

/-- Witness for C10: set the (DE, JP) corridor to 0 bps on `remitDemo`;
the fee for 2000 is then 2000 * 50 / 10000 = 10 from the default rate. -/
theorem corridor_zero_rate_uses_default_witness :
    ((90 : Nat) = remitDemo.owner ∧ ("DE" : String) ≠ "" ∧ ("JP" : String) ≠ "" ∧
      2000 * remitDemo.defaultFee < U256) ∧
    (∃ s1, updateCorridorFee remitDemo 90 "DE" "JP" 0 = .ok s1
      ∧ s1.corridorFees "DE" "JP" = 0
      ∧ s1.defaultFee = remitDemo.defaultFee
      ∧ (2000 * remitDemo.defaultFee < U256 →
        calculateFee s1 "DE" "JP" 2000 = some (2000 * remitDemo.defaultFee / 10000))) :=
  ⟨⟨by decide, by decide, by decide, by decide⟩,
   corridor_zero_rate_uses_default remitDemo 90 "DE" "JP" 2000 (by decide) (by decide)
     (by decide)⟩

end AIFi
